import Mathlib

/-!
Verification of the 99minutos shipping API core against its specification.

Statuses are modelled as `String` (the Go `ShipmentStatus` type is a string
type). `time.Time` values are modelled as `Nat` (unix seconds); `float64`
coordinate values are modelled as `Int`, since the only operation the code
performs on them is copying and comparison with the exact zero value.
-/

namespace Shipping

/-- The allowed state machine transitions (Go `validTransitions` map;
a lookup of any key not in the map yields the empty slice). -/
def validTransitions (s : String) : List String :=
  if s = "created" then ["picked_up", "cancelled"]
  else if s = "picked_up" then ["in_warehouse", "cancelled"]
  else if s = "in_warehouse" then ["in_transit", "cancelled"]
  else if s = "in_transit" then ["delivered"]
  else []

/-- Go `ShipmentStatus.CanTransitionTo`: linear scan of the allowed list. -/
def CanTransitionTo (s next : String) : Bool :=
  (validTransitions s).contains next

/-- The edges of the transition table, as enumerated by the specification. -/
def transitionEdges : List (String × String) :=
  [("created", "picked_up"), ("created", "cancelled"),
   ("picked_up", "in_warehouse"), ("picked_up", "cancelled"),
   ("in_warehouse", "in_transit"), ("in_warehouse", "cancelled"),
   ("in_transit", "delivered")]

/-- Go `domain.Coordinates` (float64 fields modelled as `Int`). -/
structure Coordinates where
  lat : Int
  lng : Int
deriving DecidableEq, Repr

/-- Go `domain.Person`. -/
structure Person where
  name : String
  email : String
  phone : String
deriving DecidableEq, Repr

/-- Go `domain.Address`. -/
structure Address where
  address : String
  city : String
  zipCode : String
  coordinates : Coordinates
deriving DecidableEq, Repr

/-- Go `domain.Dimensions` (float64 fields modelled as `Int`). -/
structure Dimensions where
  lengthCm : Int
  widthCm : Int
  heightCm : Int
deriving DecidableEq, Repr

/-- Go `domain.Package`. -/
structure Package where
  weightKg : Int
  dimensions : Dimensions
  description : String
  declaredValue : Int
  currency : String
deriving DecidableEq, Repr

/-- Go `domain.StatusHistoryEntry`. -/
structure StatusHistoryEntry where
  status : String
  timestamp : Nat
  notes : String
deriving DecidableEq, Repr

/-- Go `domain.Shipment` (aggregate root). -/
structure Shipment where
  trackingNumber : String
  clientID : String
  sender : Person
  origin : Address
  destination : Address
  package : Package
  serviceType : String
  status : String
  createdAt : Nat
  estimatedDelivery : Nat
  idempotencyKey : String
  statusHistory : List StatusHistoryEntry
deriving DecidableEq, Repr

/-- Go `domain.TrackingEvent` (the audit record persisted to `status_events`). -/
structure TrackingEvent where
  trackingNumber : String
  status : String
  timestamp : Nat
  source : String
  location : Option Coordinates
deriving DecidableEq, Repr

/-- Go `ports.LocationInput`. -/
structure LocationInput where
  lat : Int
  lng : Int
deriving DecidableEq, Repr

/-- Go `ports.TrackingEventInput` (the DTO handed to the event service). -/
structure TrackingEventInput where
  trackingNumber : String
  status : String
  timestamp : Nat
  source : String
  location : Option LocationInput
deriving DecidableEq, Repr

/-- The persistent state the event service touches: the `shipments`
collection, the Redis dedup keyspace, and the `status_events` audit
collection. -/
structure Store where
  shipments : List Shipment
  dedupKeys : List (String × String × Nat)
  audits : List TrackingEvent
deriving DecidableEq, Repr

/-- Mongo `ShipmentRepository.FindByTrackingNumber`: `FindOne` on
`tracking_number`, adding a `client_id` filter only when `clientID` is
non-empty; `none` models `ErrShipmentNotFound`. -/
def findByTrackingNumber (shipments : List Shipment)
    (tracking clientID : String) : Option Shipment :=
  shipments.find? (fun s =>
    s.trackingNumber == tracking && (clientID == "" || s.clientID == clientID))

/-- One matched document of the Mongo `$set`/`$push` update: set `status`
and append `{status, timestamp, notes: source}` to `status_history`. -/
def applyStatusUpdate (sh : Shipment) (status : String) (ts : Nat)
    (source : String) : Shipment :=
  { sh with
    status := status,
    statusHistory := sh.statusHistory ++ [⟨status, ts, source⟩] }

/-- Mongo `EventRepository.UpdateShipmentStatus` document effect:
`UpdateOne` mutates the first document matching `tracking_number` and is a
no-op when none matches (the repository discards the `UpdateResult`, so a
zero-match update is not an error). -/
def updateShipmentStatus : List Shipment → String → String → Nat → String →
    List Shipment
  | [], _, _, _, _ => []
  | sh :: rest, tracking, status, ts, source =>
    if sh.trackingNumber = tracking then
      applyStatusUpdate sh status ts source :: rest
    else
      sh :: updateShipmentStatus rest tracking status ts source

/-- Outcome of the Redis `IsDuplicate` call in `Process` step 1: the key
exists (`ok true`), does not exist (`ok false`), or the call returned a
transient error. -/
inductive DedupAnswer
  | seen
  | notSeen
  | failed
deriving DecidableEq, Repr

/-- Outcomes of the fallible external calls made by one `Process` run,
supplied as an oracle (each corresponds to an injected store fault). -/
structure Faults where
  dedupAnswer : DedupAnswer
  findFails : Bool
  markFails : Bool
  updateFails : Bool
  insertFails : Bool
deriving DecidableEq, Repr

/-- The errors `Process` can return (wrapping `fmt.Errorf` results). -/
inductive ProcessError
  | findTransient
  | shipmentNotFound
  | invalidTransition (fromStatus toStatus : String)
  | updateFailed
deriving DecidableEq, Repr

/-- The error strings built by `Process` via `fmt.Errorf`; the
invalid-transition message interpolates both statuses. -/
def processErrorMessage : ProcessError → String
  | ProcessError.findTransient => "process event: find failed"
  | ProcessError.shipmentNotFound => "process event: shipment not found"
  | ProcessError.invalidTransition s t =>
      "process event: invalid status transition (from " ++
        (s ++ (" to " ++ (t ++ ")")))
  | ProcessError.updateFailed => "process event: update status: update failed"

/-- Go `eventService.Process`: dedup check (errors are logged and ignored;
a hit returns success with no side effects), shipment lookup, transition
validation, dedup mark (errors logged and ignored), atomic status+history
update, audit insert (errors logged and ignored). -/
def Process (f : Faults) (st : Store) (ev : TrackingEventInput) :
    Except ProcessError Unit × Store :=
  if f.dedupAnswer = DedupAnswer.seen then
    (Except.ok (), st)
  else if f.findFails then
    (Except.error ProcessError.findTransient, st)
  else
    match findByTrackingNumber st.shipments ev.trackingNumber "" with
    | none => (Except.error ProcessError.shipmentNotFound, st)
    | some shipment =>
      if ¬ CanTransitionTo shipment.status ev.status then
        (Except.error
          (ProcessError.invalidTransition shipment.status ev.status), st)
      else
        let st1 :=
          if f.markFails then st
          else { st with dedupKeys :=
                  (ev.trackingNumber, ev.status, ev.timestamp) :: st.dedupKeys }
        if f.updateFails then
          (Except.error ProcessError.updateFailed, st1)
        else
          let st2 := { st1 with shipments :=
            (updateShipmentStatus st1.shipments ev.trackingNumber ev.status
              ev.timestamp ev.source) }
          let auditRec : TrackingEvent :=
            ⟨ev.trackingNumber, ev.status, ev.timestamp, ev.source,
              ev.location.map (fun l => ⟨l.lat, l.lng⟩)⟩
          let st3 :=
            if f.insertFails then st2
            else { st2 with audits := st2.audits ++ [auditRec] }
          (Except.ok (), st3)

/-- Whether an event-service result is an error. -/
def isError : Except ProcessError Unit → Bool
  | Except.error _ => true
  | Except.ok _ => false

/-- A concrete shipment in status `created`, used to instantiate theorems. -/
def exShipmentCreated : Shipment :=
  { trackingNumber := "99M-AABBCCDD", clientID := "client_1",
    sender := ⟨"Pedro", "pedro@example.com", "+52"⟩,
    origin := ⟨"Av 1", "CDMX", "06600", ⟨1, 2⟩⟩,
    destination := ⟨"Calle 2", "Puebla", "72000", ⟨3, 4⟩⟩,
    package := ⟨2, ⟨10, 20, 30⟩, "test", 100, "MXN"⟩,
    serviceType := "next_day", status := "created", createdAt := 100,
    estimatedDelivery := 200, idempotencyKey := "",
    statusHistory := [⟨"created", 100, ""⟩] }

/-- A concrete store holding exactly `exShipmentCreated`. -/
def exStore : Store := ⟨[exShipmentCreated], [], []⟩

/-- Mongo `EventRepository.UpdateShipmentStatus` as seen by its caller:
`_, err := UpdateOne(ctx, filter, update)` discards the `UpdateResult`
(and with it the matched count), so absent a transient driver error the
call reports success even when no document matched the filter. -/
def UpdateShipmentStatusRepo (transientErr : Bool) (shipments : List Shipment)
    (tracking status : String) (ts : Nat) (source : String) :
    Except Unit (List Shipment) :=
  if transientErr then Except.error ()
  else Except.ok (updateShipmentStatus shipments tracking status ts source)

/-- The 32-bit FNV-1a offset basis (Go `fnv.New32a` initial state). -/
def fnvOffsetBasis : Nat := 2166136261

/-- The 32-bit FNV prime (Go `hash/fnv` `prime32`). -/
def fnvPrime : Nat := 16777619

/-- One byte of Go `fnv.sum32a.Write`: `hash ^= uint32(c); hash *= prime32`
on 32-bit words. -/
def fnvStep (h b : Nat) : Nat := ((h ^^^ b % 256) * fnvPrime) % 2 ^ 32

/-- The hash loop of Go `shardIndex`: `fnv.New32a()` state folded over the
bytes of the tracking number, then read back with `Sum32`. -/
def fnv1a32 (bytes : List Nat) : Nat :=
  bytes.foldl fnvStep fnvOffsetBasis

/-- The FNV-1a-32 recurrence as the specification names it, written by
structural recursion for comparison with the Go fold. -/
def fnv1a32Rec (h : Nat) : List Nat → Nat
  | [] => h
  | b :: rest => fnv1a32Rec (fnvStep h b) rest

/-- Go `Dispatcher.shardIndex`: `int(h.Sum32()) % len(d.workers)`. Go's
`%` on `int` is the truncated-division remainder, modelled by `Int.tmod`;
the `uint32 → int` conversion is value-preserving on 64-bit targets. -/
def shardIndex (numWorkers : Nat) (trackingBytes : List Nat) : Int :=
  Int.tmod (Int.ofNat (fnv1a32 trackingBytes)) (Int.ofNat numWorkers)

/-- Go `locationRequest` (both float64 fields tagged `validate:"required"`). -/
structure LocationRequest where
  lat : Int
  lng : Int
deriving DecidableEq, Repr

/-- Go `trackingEventRequest`, the single-event ingress payload. -/
structure TrackingEventRequest where
  trackingNumber : String
  status : String
  timestamp : Nat
  source : String
  location : Option LocationRequest
deriving DecidableEq, Repr

/-- The `oneof` parameter list on the `status` field. -/
def eventStatusOneOf : List String :=
  ["picked_up", "in_warehouse", "in_transit", "delivered", "cancelled"]

/-- Validation of a present `location` per go-playground semantics:
`required` on a float64 field fails exactly when the value is the zero
value. Error messages follow `fieldError` ("<lowercased field> is
required"). -/
def validateLocation (loc : LocationRequest) : List String :=
  (if loc.lat = 0 then ["lat is required"] else []) ++
  (if loc.lng = 0 then ["lng is required"] else [])

/-- All field errors of one `trackingEventRequest`, in struct-field order,
per go-playground semantics: `required` fails on the zero value of the
field's type (empty string, zero time, zero float), `oneof` on a value
outside its list; a nil `location` pointer is skipped, a non-nil one has
its fields validated. -/
def fieldErrors (r : TrackingEventRequest) : List String :=
  (if r.trackingNumber = "" then ["trackingnumber is required"] else []) ++
  (if r.status = "" then ["status is required"]
   else if ¬ eventStatusOneOf.contains r.status then
     ["status must be one of: picked_up in_warehouse in_transit delivered cancelled"]
   else []) ++
  (if r.timestamp = 0 then ["timestamp is required"] else []) ++
  (if r.source = "" then ["source is required"] else []) ++
  (match r.location with
   | none => []
   | some loc => validateLocation loc)

/-- Go `echoValidator.Validate`: `none` on success, otherwise the field
messages joined with "; ". -/
def validateEvent (r : TrackingEventRequest) : Option String :=
  match fieldErrors r with
  | [] => none
  | msgs => some (String.intercalate "; " msgs)

/-- Go `toEventInput`: map the HTTP request to the service DTO. -/
def toEventInput (r : TrackingEventRequest) : TrackingEventInput :=
  ⟨r.trackingNumber, r.status, r.timestamp, r.source,
    r.location.map (fun l => ⟨l.lat, l.lng⟩)⟩

/-- HTTP replies of the event ingress: 202 (with the batch count when
present), 400, or 422. -/
inductive HttpReply
  | accepted (count : Option Nat)
  | badRequest (msg : String)
  | unprocessable (msg : String)
deriving DecidableEq, Repr

/-- Go `EventHandler.Receive` after a successful bind: validate, then
enqueue and reply 202; on validation failure reply 422 with the message
and enqueue nothing. The second component is the dispatcher queue. -/
def Receive (r : TrackingEventRequest) (queue : List TrackingEventInput) :
    HttpReply × List TrackingEventInput :=
  match validateEvent r with
  | some msg => (HttpReply.unprocessable msg, queue)
  | none => (HttpReply.accepted none, queue ++ [toEventInput r])

/-- The validation loop of `ReceiveBatch`: validate each element in order,
failing on the first invalid one with its index and message, otherwise
collecting the mapped inputs. -/
def validateBatch (i : Nat) : List TrackingEventRequest →
    Except (Nat × String) (List TrackingEventInput)
  | [] => Except.ok []
  | r :: rest =>
    match validateEvent r with
    | some msg => Except.error (i, msg)
    | none =>
      match validateBatch (i + 1) rest with
      | Except.error e => Except.error e
      | Except.ok tl => Except.ok (toEventInput r :: tl)

/-- Go `EventHandler.ReceiveBatch` after a successful bind: 400 on an empty
batch; otherwise validate all elements, replying 422 with
`event[i]: <message>` on the first invalid element without enqueuing
anything, or enqueuing the whole batch and replying 202 with the count. -/
def ReceiveBatch (reqs : List TrackingEventRequest)
    (queue : List TrackingEventInput) : HttpReply × List TrackingEventInput :=
  if reqs.length = 0 then
    (HttpReply.badRequest "batch cannot be empty", queue)
  else
    match validateBatch 0 reqs with
    | Except.error (i, msg) =>
      (HttpReply.unprocessable ("event[" ++ (toString i ++ ("]: " ++ msg))),
        queue)
    | Except.ok inputs => (HttpReply.accepted (some inputs.length), queue ++ inputs)

/-- Go `ports.CreateShipmentInput` (the nested `SenderInput`,
`AddressInput` and `PackageInput` DTOs carry exactly the fields of the
corresponding domain structures and are modelled by them). -/
structure CreateShipmentInput where
  sender : Person
  origin : Address
  destination : Address
  package : Package
  serviceType : String
  clientID : String
  idempotencyKey : String
deriving DecidableEq, Repr

/-- Go `ports.ShipmentResult`. -/
structure ShipmentResult where
  trackingNumber : String
  status : String
  createdAt : Nat
  estimatedDelivery : Nat
  alreadyExisted : Bool
deriving DecidableEq, Repr

/-- Mongo `ShipmentRepository.FindByIdempotencyKey`: `FindOne` on
`idempotency_key` (the service only calls this with a non-empty key). -/
def findByIdempotencyKey (shipments : List Shipment) (key : String) :
    Option Shipment :=
  shipments.find? (fun s => s.idempotencyKey == key)

/-- Seconds in one day, for `time.AddDate(0, 0, k)` in UTC. -/
def secondsPerDay : Nat := 86400

/-- Go `estimatedDelivery`: 18:00 UTC of the creation day, plus 0 days for
`same_day`, 1 for `next_day`, 3 otherwise. -/
def estimatedDelivery (serviceType : String) (nowSec : Nat) : Nat :=
  let base := nowSec / secondsPerDay * secondsPerDay + 18 * 3600
  if serviceType = "same_day" then base
  else if serviceType = "next_day" then base + secondsPerDay
  else base + 3 * secondsPerDay

/-- The `domain.Shipment` literal built by `CreateShipment`, with the
generated tracking number and `time.Now()` passed in as the values the
respective calls returned. -/
def buildShipment (input : CreateShipmentInput) (nowSec : Nat)
    (newTracking : String) : Shipment :=
  { trackingNumber := newTracking,
    clientID := input.clientID,
    sender := ⟨input.sender.name, input.sender.email, input.sender.phone⟩,
    origin := ⟨input.origin.address, input.origin.city, input.origin.zipCode,
      ⟨input.origin.coordinates.lat, input.origin.coordinates.lng⟩⟩,
    destination := ⟨input.destination.address, input.destination.city,
      input.destination.zipCode,
      ⟨input.destination.coordinates.lat, input.destination.coordinates.lng⟩⟩,
    package := ⟨input.package.weightKg,
      ⟨input.package.dimensions.lengthCm, input.package.dimensions.widthCm,
        input.package.dimensions.heightCm⟩,
      input.package.description, input.package.declaredValue,
      input.package.currency⟩,
    serviceType := input.serviceType,
    status := "created",
    createdAt := nowSec,
    estimatedDelivery := estimatedDelivery input.serviceType nowSec,
    idempotencyKey := input.idempotencyKey,
    statusHistory := [⟨"created", nowSec, ""⟩] }

/-- Go `ShipmentService.CreateShipment`: with a non-empty idempotency key
that is already stored, return the existing shipment (marked
`AlreadyExisted`) without side effects; otherwise build the new shipment
and insert it (`createFails` injects the repository's `Create` error). -/
def CreateShipment (createFails : Bool) (shipments : List Shipment)
    (input : CreateShipmentInput) (nowSec : Nat) (newTracking : String) :
    Except Unit ShipmentResult × List Shipment :=
  match (if input.idempotencyKey = "" then none
         else findByIdempotencyKey shipments input.idempotencyKey) with
  | some existing =>
    (Except.ok ⟨existing.trackingNumber, existing.status, existing.createdAt,
      existing.estimatedDelivery, true⟩, shipments)
  | none =>
    let shipment := buildShipment input nowSec newTracking
    if createFails then (Except.error (), shipments)
    else
      (Except.ok ⟨shipment.trackingNumber, shipment.status,
        shipment.createdAt, shipment.estimatedDelivery, false⟩,
        shipments ++ [shipment])

/-- The tracking number carried by a successful create result. -/
def resultTracking : Except Unit ShipmentResult → Option String
  | Except.ok r => some r.trackingNumber
  | Except.error _ => none

/-- C1: `CanTransitionTo s t` is true exactly when `(s, t)` is an edge of the
transition table; in particular it is false for every self-loop, for both
terminal sources `delivered` and `cancelled`, and hence for every input
outside the closed six-status set (it is total on all strings). -/
theorem canTransitionTo_iff_edge (s t : String) :
    (CanTransitionTo s t = true ↔ (s, t) ∈ transitionEdges) ∧
    CanTransitionTo s s = false ∧
    CanTransitionTo "delivered" t = false ∧
    CanTransitionTo "cancelled" t = false := by
  refine ⟨?_, ?_, ?_, ?_⟩
  · unfold CanTransitionTo validTransitions transitionEdges
    split_ifs with h1 h2 h3 h4 <;>
      simp_all [List.contains, List.elem_iff, Prod.ext_iff]
  · unfold CanTransitionTo validTransitions
    split_ifs with h1 h2 h3 h4 <;> simp_all [List.contains, List.elem_iff]
  · unfold CanTransitionTo validTransitions
    simp
  · unfold CanTransitionTo validTransitions
    simp

/-- C2: when the loaded shipment's status `S` cannot transition to the
event's target status `T`, `Process` fails with the invalid-transition
error whose message interpolates both `S` and `T`, and the store is left
completely unchanged (no status or history update, no dedup mark, no audit
insert). -/
theorem process_invalid_transition (f : Faults) (st : Store)
    (ev : TrackingEventInput) (sh : Shipment)
    (hdup : f.dedupAnswer ≠ DedupAnswer.seen)
    (hfind : f.findFails = false)
    (hsh : findByTrackingNumber st.shipments ev.trackingNumber "" = some sh)
    (hinv : CanTransitionTo sh.status ev.status = false) :
    Process f st ev =
      (Except.error (ProcessError.invalidTransition sh.status ev.status), st) ∧
    ∃ pre mid post,
      processErrorMessage
          (ProcessError.invalidTransition sh.status ev.status) =
        pre ++ (sh.status ++ (mid ++ (ev.status ++ post))) := by
  refine ⟨?_, ⟨"process event: invalid status transition (from ",
    " to ", ")", rfl⟩⟩
  simp [Process, hdup, hfind, hsh, hinv]

/-- Witness for C2 at a concrete store and event. -/
theorem process_invalid_transition_witness :
    Process ⟨DedupAnswer.notSeen, false, false, false, false⟩ exStore
        ⟨"99M-AABBCCDD", "delivered", 150, "driver_app", none⟩ =
      (Except.error (ProcessError.invalidTransition "created" "delivered"),
        exStore) ∧
    ∃ pre mid post,
      processErrorMessage (ProcessError.invalidTransition "created" "delivered") =
        pre ++ ("created" ++ (mid ++ ("delivered" ++ post))) :=
  process_invalid_transition
    ⟨DedupAnswer.notSeen, false, false, false, false⟩ exStore
    ⟨"99M-AABBCCDD", "delivered", 150, "driver_app", none⟩
    exShipmentCreated (by decide) rfl (by decide) (by decide)

/-- C3: when the duplicate check answers "seen", `Process` returns success
immediately and the store is untouched: no status update, no history
append, no audit insert, no dedup mark. -/
theorem process_duplicate_skipped (f : Faults) (st : Store)
    (ev : TrackingEventInput) (h : f.dedupAnswer = DedupAnswer.seen) :
    Process f st ev = (Except.ok (), st) := by
  simp [Process, h]

/-- Witness for C3 at a concrete store and event. -/
theorem process_duplicate_skipped_witness :
    Process ⟨DedupAnswer.seen, false, false, false, false⟩ exStore
        ⟨"99M-AABBCCDD", "picked_up", 150, "driver_app", none⟩ =
      (Except.ok (), exStore) :=
  process_duplicate_skipped
    ⟨DedupAnswer.seen, false, false, false, false⟩ exStore
    ⟨"99M-AABBCCDD", "picked_up", 150, "driver_app", none⟩ (by decide)

/-- C4: `Process` returns an error exactly when (the event is not a
confirmed duplicate and) the shipment lookup fails — transiently or with
not-found — or the transition is invalid, or the atomic update fails.
Errors of the duplicate check, of `Mark` and of the audit insert never
cause failure: a failed duplicate check behaves like a miss, and a failed
`Mark` does not prevent the status write. -/
theorem process_error_characterisation (f : Faults) (st : Store)
    (ev : TrackingEventInput) :
    (isError (Process f st ev).1 = true ↔
      f.dedupAnswer ≠ DedupAnswer.seen ∧
        (f.findFails = true ∨
         findByTrackingNumber st.shipments ev.trackingNumber "" = none ∨
         ∃ sh, findByTrackingNumber st.shipments ev.trackingNumber "" = some sh ∧
           (CanTransitionTo sh.status ev.status = false ∨
            f.updateFails = true))) ∧
    Process { f with dedupAnswer := DedupAnswer.failed } st ev =
      Process { f with dedupAnswer := DedupAnswer.notSeen } st ev ∧
    (Process { f with markFails := true } st ev).2.shipments =
      (Process { f with markFails := false } st ev).2.shipments := by
  refine ⟨?_, ?_, ?_⟩
  · by_cases hdup : f.dedupAnswer = DedupAnswer.seen
    · simp [Process, hdup, isError]
    · by_cases hfind : f.findFails
      · simp [Process, hdup, hfind, isError]
      · cases hsh : findByTrackingNumber st.shipments ev.trackingNumber "" with
        | none => simp [Process, hdup, hfind, hsh, isError]
        | some sh =>
          by_cases htr : CanTransitionTo sh.status ev.status
          · by_cases hupd : f.updateFails <;>
              simp [Process, hdup, hfind, hsh, htr, hupd, isError]
          · simp [Process, hdup, hfind, hsh, htr, isError]
  · simp [Process]
  · by_cases hdup : f.dedupAnswer = DedupAnswer.seen
    · simp [Process, hdup]
    · by_cases hfind : f.findFails
      · simp [Process, hdup, hfind]
      · cases hsh : findByTrackingNumber st.shipments ev.trackingNumber "" with
        | none => simp [Process, hdup, hfind, hsh]
        | some sh =>
          by_cases htr : CanTransitionTo sh.status ev.status
          · by_cases hupd : f.updateFails <;>
              by_cases hins : f.insertFails <;>
                simp [Process, hdup, hfind, hsh, htr, hupd, hins]
          · simp [Process, hdup, hfind, hsh, htr]

/-- A zero-match `UpdateOne` leaves the collection unchanged. -/
theorem updateShipmentStatus_no_match (shipments : List Shipment)
    (tracking status : String) (ts : Nat) (source : String)
    (h : ∀ sh ∈ shipments, sh.trackingNumber ≠ tracking) :
    updateShipmentStatus shipments tracking status ts source = shipments := by
  induction shipments with
  | nil => rfl
  | cons a l ih =>
    have ha : a.trackingNumber ≠ tracking := h a (List.mem_cons_self a l)
    have hl : ∀ sh ∈ l, sh.trackingNumber ≠ tracking :=
      fun sh hsh => h sh (List.mem_cons_of_mem a hsh)
    simp [updateShipmentStatus, ha, ih hl]

/-- Counterexample to C5: applying the persist step to a collection holding
no document for the tracking number reports success — not `not_found` —
because the repository never inspects the update's matched count. -/
theorem update_missing_counterexample :
    UpdateShipmentStatusRepo false [] "99M-AABBCCDD" "picked_up" 150
        "driver_app" = Except.ok [] ∧
    ∀ e, UpdateShipmentStatusRepo false [] "99M-AABBCCDD" "picked_up" 150
        "driver_app" ≠ Except.error e := by
  exact ⟨rfl, fun e h => Except.noConfusion h⟩

/-- C5 (amended): when the persist step is applied to a tracking number for
which no shipment document exists, the store's update operation reports
success and leaves the collection unchanged (the repository ignores the
driver's matched count, so the not-found race is silently absorbed rather
than surfaced as `shipment_not_found`). -/
theorem update_missing_is_silent_noop (shipments : List Shipment)
    (tracking status : String) (ts : Nat) (source : String)
    (h : ∀ sh ∈ shipments, sh.trackingNumber ≠ tracking) :
    UpdateShipmentStatusRepo false shipments tracking status ts source =
      Except.ok shipments := by
  unfold UpdateShipmentStatusRepo
  rw [if_neg (by simp)]
  rw [updateShipmentStatus_no_match shipments tracking status ts source h]

/-- Witness for the amended C5 at a concrete non-empty collection. -/
theorem update_missing_is_silent_noop_witness :
    UpdateShipmentStatusRepo false [exShipmentCreated] "99M-ZZZZZZZZ"
        "picked_up" 150 "driver_app" = Except.ok [exShipmentCreated] :=
  update_missing_is_silent_noop [exShipmentCreated] "99M-ZZZZZZZZ"
    "picked_up" 150 "driver_app" (by decide)

/-- The Go fold and the specification's recurrence agree. -/
theorem fnv1a32_eq_rec (bytes : List Nat) :
    fnv1a32 bytes = fnv1a32Rec fnvOffsetBasis bytes := by
  unfold fnv1a32
  generalize fnvOffsetBasis = h0
  induction bytes generalizing h0 with
  | nil => rfl
  | cons b rest ih => simp [List.foldl, fnv1a32Rec, ih]

/-- C6: for `N ≥ 1` workers, `shardIndex` equals the FNV-1a-32 hash of the
tracking number's bytes reduced mod `N` — a deterministic value in
`[0, N)` — so two events with the same tracking number always land on the
same worker queue. -/
theorem shardIndex_fnv_mod (n : Nat) (hn : 1 ≤ n) (bytes : List Nat) :
    shardIndex n bytes = Int.ofNat (fnv1a32Rec fnvOffsetBasis bytes % n) ∧
    0 ≤ shardIndex n bytes ∧ shardIndex n bytes < Int.ofNat n := by
  have htmod : shardIndex n bytes = Int.ofNat (fnv1a32 bytes % n) := rfl
  refine ⟨?_, ?_, ?_⟩
  · rw [htmod, fnv1a32_eq_rec]
  · rw [htmod]
    exact Int.ofNat_nonneg _
  · rw [htmod]
    exact Int.ofNat_lt.mpr (Nat.mod_lt _ hn)

/-- Witness for C6: the UTF-8 bytes of tracking number "99M-AABBCCDD" with
the default 8 workers. -/
theorem shardIndex_fnv_mod_witness :
    shardIndex 8 [0x39, 0x39, 0x4D, 0x2D, 0x41, 0x41, 0x42, 0x42, 0x43,
        0x43, 0x44, 0x44] =
      Int.ofNat (fnv1a32Rec fnvOffsetBasis [0x39, 0x39, 0x4D, 0x2D, 0x41,
        0x41, 0x42, 0x42, 0x43, 0x43, 0x44, 0x44] % 8) ∧
    0 ≤ shardIndex 8 [0x39, 0x39, 0x4D, 0x2D, 0x41, 0x41, 0x42, 0x42,
        0x43, 0x43, 0x44, 0x44] ∧
    shardIndex 8 [0x39, 0x39, 0x4D, 0x2D, 0x41, 0x41, 0x42, 0x42, 0x43,
        0x43, 0x44, 0x44] < Int.ofNat 8 :=
  shardIndex_fnv_mod 8 (by decide)
    [0x39, 0x39, 0x4D, 0x2D, 0x41, 0x41, 0x42, 0x42, 0x43, 0x43, 0x44, 0x44]

/-- The validation loop fails at the first invalid element, reporting its
index relative to the loop's starting index. -/
theorem validateBatch_first_invalid (i : Nat) (pre post : List TrackingEventRequest)
    (r : TrackingEventRequest) (msg : String)
    (hpre : ∀ p ∈ pre, validateEvent p = none)
    (hbad : validateEvent r = some msg) :
    validateBatch i (pre ++ r :: post) = Except.error (i + pre.length, msg) := by
  induction pre generalizing i with
  | nil => simp [validateBatch, hbad]
  | cons p rest ih =>
    have hp : validateEvent p = none := hpre p (List.mem_cons_self p rest)
    have hrest : ∀ q ∈ rest, validateEvent q = none :=
      fun q hq => hpre q (List.mem_cons_of_mem p hq)
    have hstep := ih (i + 1) hrest
    have harith : i + 1 + rest.length = i + (rest.length + 1) := by omega
    simp [validateBatch, hp, hstep, harith]

/-- C7: when the element at index `i` (= the length of the valid prefix)
is the first structurally invalid element of a batch, `ReceiveBatch`
replies 422 with message `event[i]: <validation message>` and enqueues
none of the batch's events — neither the valid prefix nor anything after
the invalid element. -/
theorem receiveBatch_fail_fast (pre post : List TrackingEventRequest)
    (r : TrackingEventRequest) (queue : List TrackingEventInput) (msg : String)
    (hpre : ∀ p ∈ pre, validateEvent p = none)
    (hbad : validateEvent r = some msg) :
    ReceiveBatch (pre ++ r :: post) queue =
      (HttpReply.unprocessable
        ("event[" ++ (toString pre.length ++ ("]: " ++ msg))), queue) := by
  have hvb := validateBatch_first_invalid 0 pre post r msg hpre hbad
  have hlen : (pre ++ r :: post).length ≠ 0 := by simp
  simp [ReceiveBatch, hlen, hvb]

/-- Witness for C7: three well-formed events followed by one with an empty
tracking number; index 3 is reported and the queue stays empty. -/
theorem receiveBatch_fail_fast_witness :
    ReceiveBatch
        [⟨"99M-00000001", "picked_up", 10, "driver_app", none⟩,
         ⟨"99M-00000002", "picked_up", 11, "driver_app", none⟩,
         ⟨"99M-00000003", "picked_up", 12, "driver_app", none⟩,
         ⟨"", "picked_up", 13, "driver_app", none⟩] [] =
      (HttpReply.unprocessable
        ("event[" ++ (toString (3 : Nat) ++ ("]: " ++ "trackingnumber is required"))),
        []) := by
  have h := receiveBatch_fail_fast
    [⟨"99M-00000001", "picked_up", 10, "driver_app", none⟩,
     ⟨"99M-00000002", "picked_up", 11, "driver_app", none⟩,
     ⟨"99M-00000003", "picked_up", 12, "driver_app", none⟩]
    [] ⟨"", "picked_up", 13, "driver_app", none⟩ []
    "trackingnumber is required" (by decide) (by decide)
  simpa using h

/-- A non-empty field-error list makes `Validate` return the joined message. -/
theorem validateEvent_of_errors (r : TrackingEventRequest)
    (h : fieldErrors r ≠ []) :
    validateEvent r = some (String.intercalate "; " (fieldErrors r)) := by
  unfold validateEvent
  cases hcase : fieldErrors r with
  | nil => exact absurd hcase h
  | cons a l => simp

/-- C10: a single-event request whose location is present with `lat = 0` or
`lng = 0` fails structural validation — the ingress replies 422 and
enqueues nothing — even though both coordinate fields are present in the
payload; and a present location passes its validation exactly when both
coordinates are non-zero. -/
theorem location_zero_rejected (r : TrackingEventRequest)
    (loc : LocationRequest) (queue : List TrackingEventInput)
    (hloc : r.location = some loc) (hzero : loc.lat = 0 ∨ loc.lng = 0) :
    (∃ msg, validateEvent r = some msg ∧
      Receive r queue = (HttpReply.unprocessable msg, queue)) ∧
    (∀ l : LocationRequest, validateLocation l = [] ↔ l.lat ≠ 0 ∧ l.lng ≠ 0) := by
  have hvl : validateLocation loc ≠ [] := by
    rcases hzero with h0 | h0 <;> simp [validateLocation, h0]
  have hfe : fieldErrors r ≠ [] := by
    intro h
    apply hvl
    simp only [fieldErrors, hloc] at h
    exact (List.append_eq_nil.mp h).2
  have hveq := validateEvent_of_errors r hfe
  refine ⟨⟨String.intercalate "; " (fieldErrors r), hveq, ?_⟩, ?_⟩
  · simp [Receive, hveq]
  · intro l
    by_cases h1 : l.lat = 0 <;> by_cases h2 : l.lng = 0 <;>
      simp [validateLocation, h1, h2]

/-- Witness for C10: a fully populated event whose location has `lat = 0`. -/
theorem location_zero_rejected_witness :
    (∃ msg,
      validateEvent
          ⟨"99M-00000001", "picked_up", 10, "driver_app", some ⟨0, 5⟩⟩ =
        some msg ∧
      Receive ⟨"99M-00000001", "picked_up", 10, "driver_app", some ⟨0, 5⟩⟩ [] =
        (HttpReply.unprocessable msg, [])) ∧
    (∀ l : LocationRequest, validateLocation l = [] ↔ l.lat ≠ 0 ∧ l.lng ≠ 0) :=
  location_zero_rejected
    ⟨"99M-00000001", "picked_up", 10, "driver_app", some ⟨0, 5⟩⟩
    ⟨0, 5⟩ [] rfl (Or.inl rfl)

/-- A `find?` over an appended list starts in the right part when the left
part has no hit. -/
theorem find?_append_of_none {α : Type} (p : α → Bool) (l1 l2 : List α)
    (h : l1.find? p = none) : (l1 ++ l2).find? p = l2.find? p := by
  induction l1 with
  | nil => rfl
  | cons a l ih =>
    cases hpa : p a with
    | true => simp [List.find?, hpa] at h
    | false =>
      simp only [List.find?, hpa] at h
      simp only [List.cons_append, List.find?, hpa]
      exact ih h

/-- C8: a shipment newly created by `CreateShipment` is stored with
status `created` and a one-entry history `{created, created_at}`, and
reading it back by tracking number yields that shipment: the same
descriptive fields as the input, status `created`, and a history of
length one. -/
theorem createShipment_initial (shipments : List Shipment)
    (input : CreateShipmentInput) (nowSec : Nat) (newTracking : String)
    (hreplay : input.idempotencyKey = "" ∨
      findByIdempotencyKey shipments input.idempotencyKey = none)
    (hfresh : findByTrackingNumber shipments newTracking "" = none) :
    ∃ sh,
      (CreateShipment false shipments input nowSec newTracking).1 =
        Except.ok ⟨newTracking, "created", nowSec,
          estimatedDelivery input.serviceType nowSec, false⟩ ∧
      findByTrackingNumber
          (CreateShipment false shipments input nowSec newTracking).2
          newTracking "" = some sh ∧
      sh.status = "created" ∧
      sh.createdAt = nowSec ∧
      sh.statusHistory = [⟨"created", nowSec, ""⟩] ∧
      sh.sender = input.sender ∧
      sh.origin = input.origin ∧
      sh.destination = input.destination ∧
      sh.package = input.package ∧
      sh.serviceType = input.serviceType ∧
      sh.clientID = input.clientID := by
  have hscrut : (if input.idempotencyKey = "" then none
      else findByIdempotencyKey shipments input.idempotencyKey) =
      (none : Option Shipment) := by
    rcases hreplay with h | h <;> simp [h]
  have hfirst : CreateShipment false shipments input nowSec newTracking =
      (Except.ok ⟨newTracking, "created", nowSec,
        estimatedDelivery input.serviceType nowSec, false⟩,
       shipments ++ [buildShipment input nowSec newTracking]) := by
    simp [CreateShipment, hscrut, buildShipment]
  refine ⟨buildShipment input nowSec newTracking, ?_, ?_, rfl, rfl, rfl,
    rfl, rfl, rfl, rfl, rfl, rfl⟩
  · rw [hfirst]
  · rw [hfirst]
    unfold findByTrackingNumber at hfresh ⊢
    rw [find?_append_of_none _ _ _ hfresh]
    simp [buildShipment]

/-- Witness for C8 on an empty store with a concrete input. -/
theorem createShipment_initial_witness :
    ∃ sh,
      (CreateShipment false []
          ⟨⟨"Pedro", "pedro@example.com", "+52"⟩,
           ⟨"Av 1", "CDMX", "06600", ⟨1, 2⟩⟩,
           ⟨"Calle 2", "Puebla", "72000", ⟨3, 4⟩⟩,
           ⟨2, ⟨10, 20, 30⟩, "test", 100, "MXN"⟩,
           "next_day", "client_1", ""⟩ 100 "99M-00000001").1 =
        Except.ok ⟨"99M-00000001", "created", 100,
          estimatedDelivery "next_day" 100, false⟩ ∧
      findByTrackingNumber
          (CreateShipment false []
            ⟨⟨"Pedro", "pedro@example.com", "+52"⟩,
             ⟨"Av 1", "CDMX", "06600", ⟨1, 2⟩⟩,
             ⟨"Calle 2", "Puebla", "72000", ⟨3, 4⟩⟩,
             ⟨2, ⟨10, 20, 30⟩, "test", 100, "MXN"⟩,
             "next_day", "client_1", ""⟩ 100 "99M-00000001").2
          "99M-00000001" "" = some sh ∧
      sh.status = "created" ∧
      sh.createdAt = 100 ∧
      sh.statusHistory = [⟨"created", 100, ""⟩] ∧
      sh.sender = ⟨"Pedro", "pedro@example.com", "+52"⟩ ∧
      sh.origin = ⟨"Av 1", "CDMX", "06600", ⟨1, 2⟩⟩ ∧
      sh.destination = ⟨"Calle 2", "Puebla", "72000", ⟨3, 4⟩⟩ ∧
      sh.package = ⟨2, ⟨10, 20, 30⟩, "test", 100, "MXN"⟩ ∧
      sh.serviceType = "next_day" ∧
      sh.clientID = "client_1" :=
  createShipment_initial []
    ⟨⟨"Pedro", "pedro@example.com", "+52"⟩,
     ⟨"Av 1", "CDMX", "06600", ⟨1, 2⟩⟩,
     ⟨"Calle 2", "Puebla", "72000", ⟨3, 4⟩⟩,
     ⟨2, ⟨10, 20, 30⟩, "test", 100, "MXN"⟩,
     "next_day", "client_1", ""⟩ 100 "99M-00000001"
    (Or.inl rfl) rfl

/-- C9: with a non-empty idempotency key, if a shipment with that key is
already stored, `CreateShipment` returns that shipment's tracking number
marked as already existing and stores nothing new; consequently two calls
with the same key return the same tracking number and leave exactly one
new stored shipment. -/
theorem createShipment_idempotent_replay (shipments : List Shipment)
    (input : CreateShipmentInput) (nowSec1 nowSec2 : Nat) (t1 t2 : String)
    (hkey : input.idempotencyKey ≠ "") :
    (∀ existing,
      findByIdempotencyKey shipments input.idempotencyKey = some existing →
      CreateShipment false shipments input nowSec1 t1 =
        (Except.ok ⟨existing.trackingNumber, existing.status,
          existing.createdAt, existing.estimatedDelivery, true⟩, shipments)) ∧
    (findByIdempotencyKey shipments input.idempotencyKey = none →
      resultTracking (CreateShipment false shipments input nowSec1 t1).1 =
        some t1 ∧
      resultTracking
        (CreateShipment false
          ((CreateShipment false shipments input nowSec1 t1).2)
          input nowSec2 t2).1 = some t1 ∧
      (CreateShipment false
          ((CreateShipment false shipments input nowSec1 t1).2)
          input nowSec2 t2).2 =
        (CreateShipment false shipments input nowSec1 t1).2 ∧
      ((CreateShipment false shipments input nowSec1 t1).2).length =
        shipments.length + 1) := by
  constructor
  · intro existing hfound
    simp [CreateShipment, hkey, hfound]
  · intro hnone
    have hfirst : CreateShipment false shipments input nowSec1 t1 =
        (Except.ok ⟨t1, "created", nowSec1,
          estimatedDelivery input.serviceType nowSec1, false⟩,
         shipments ++ [buildShipment input nowSec1 t1]) := by
      simp [CreateShipment, hkey, hnone, buildShipment]
    have hfind2 : findByIdempotencyKey
        (shipments ++ [buildShipment input nowSec1 t1])
        input.idempotencyKey = some (buildShipment input nowSec1 t1) := by
      unfold findByIdempotencyKey at hnone ⊢
      rw [find?_append_of_none _ _ _ hnone]
      simp [buildShipment]
    refine ⟨?_, ?_, ?_, ?_⟩
    · rw [hfirst]
      rfl
    · rw [hfirst]
      simp only [CreateShipment]
      rw [if_neg hkey, hfind2]
      rfl
    · rw [hfirst]
      simp only [CreateShipment]
      rw [if_neg hkey, hfind2]
    · rw [hfirst]
      simp

/-- Witness for C9 on an empty store with key "key-abc-123". -/
theorem createShipment_idempotent_replay_witness :
    (∀ existing,
      findByIdempotencyKey [] "key-abc-123" = some existing →
      CreateShipment false []
          ⟨⟨"Pedro", "pedro@example.com", "+52"⟩,
           ⟨"Av 1", "CDMX", "06600", ⟨1, 2⟩⟩,
           ⟨"Calle 2", "Puebla", "72000", ⟨3, 4⟩⟩,
           ⟨2, ⟨10, 20, 30⟩, "test", 100, "MXN"⟩,
           "next_day", "client_1", "key-abc-123"⟩ 100 "99M-00000001" =
        (Except.ok ⟨existing.trackingNumber, existing.status,
          existing.createdAt, existing.estimatedDelivery, true⟩, [])) ∧
    (findByIdempotencyKey [] "key-abc-123" = none →
      resultTracking (CreateShipment false []
          ⟨⟨"Pedro", "pedro@example.com", "+52"⟩,
           ⟨"Av 1", "CDMX", "06600", ⟨1, 2⟩⟩,
           ⟨"Calle 2", "Puebla", "72000", ⟨3, 4⟩⟩,
           ⟨2, ⟨10, 20, 30⟩, "test", 100, "MXN"⟩,
           "next_day", "client_1", "key-abc-123"⟩ 100 "99M-00000001").1 =
        some "99M-00000001" ∧
      resultTracking
        (CreateShipment false
          ((CreateShipment false []
            ⟨⟨"Pedro", "pedro@example.com", "+52"⟩,
             ⟨"Av 1", "CDMX", "06600", ⟨1, 2⟩⟩,
             ⟨"Calle 2", "Puebla", "72000", ⟨3, 4⟩⟩,
             ⟨2, ⟨10, 20, 30⟩, "test", 100, "MXN"⟩,
             "next_day", "client_1", "key-abc-123"⟩ 100 "99M-00000001").2)
          ⟨⟨"Pedro", "pedro@example.com", "+52"⟩,
           ⟨"Av 1", "CDMX", "06600", ⟨1, 2⟩⟩,
           ⟨"Calle 2", "Puebla", "72000", ⟨3, 4⟩⟩,
           ⟨2, ⟨10, 20, 30⟩, "test", 100, "MXN"⟩,
           "next_day", "client_1", "key-abc-123"⟩ 200 "99M-00000002").1 =
        some "99M-00000001" ∧
      (CreateShipment false
          ((CreateShipment false []
            ⟨⟨"Pedro", "pedro@example.com", "+52"⟩,
             ⟨"Av 1", "CDMX", "06600", ⟨1, 2⟩⟩,
             ⟨"Calle 2", "Puebla", "72000", ⟨3, 4⟩⟩,
             ⟨2, ⟨10, 20, 30⟩, "test", 100, "MXN"⟩,
             "next_day", "client_1", "key-abc-123"⟩ 100 "99M-00000001").2)
          ⟨⟨"Pedro", "pedro@example.com", "+52"⟩,
           ⟨"Av 1", "CDMX", "06600", ⟨1, 2⟩⟩,
           ⟨"Calle 2", "Puebla", "72000", ⟨3, 4⟩⟩,
           ⟨2, ⟨10, 20, 30⟩, "test", 100, "MXN"⟩,
           "next_day", "client_1", "key-abc-123"⟩ 200 "99M-00000002").2 =
        (CreateShipment false []
          ⟨⟨"Pedro", "pedro@example.com", "+52"⟩,
           ⟨"Av 1", "CDMX", "06600", ⟨1, 2⟩⟩,
           ⟨"Calle 2", "Puebla", "72000", ⟨3, 4⟩⟩,
           ⟨2, ⟨10, 20, 30⟩, "test", 100, "MXN"⟩,
           "next_day", "client_1", "key-abc-123"⟩ 100 "99M-00000001").2 ∧
      ((CreateShipment false []
          ⟨⟨"Pedro", "pedro@example.com", "+52"⟩,
           ⟨"Av 1", "CDMX", "06600", ⟨1, 2⟩⟩,
           ⟨"Calle 2", "Puebla", "72000", ⟨3, 4⟩⟩,
           ⟨2, ⟨10, 20, 30⟩, "test", 100, "MXN"⟩,
           "next_day", "client_1", "key-abc-123"⟩ 100 "99M-00000001").2).length =
        List.length ([] : List Shipment) + 1) :=
  createShipment_idempotent_replay []
    ⟨⟨"Pedro", "pedro@example.com", "+52"⟩,
     ⟨"Av 1", "CDMX", "06600", ⟨1, 2⟩⟩,
     ⟨"Calle 2", "Puebla", "72000", ⟨3, 4⟩⟩,
     ⟨2, ⟨10, 20, 30⟩, "test", 100, "MXN"⟩,
     "next_day", "client_1", "key-abc-123"⟩ 100 200
    "99M-00000001" "99M-00000002" (by decide)

end Shipping

